import Mathlib

/-!
Verification of `code/client/munkilib/authrestart.py` (munki).

The module is embedded shallowly: every function of the source becomes a pure
Lean function from an environment `Env` (OS version, preferences, and the
outcomes of the external commands the code would spawn) to its return value
paired with a trace of observable events.  Events record each `display` logging
call, each spawned subprocess, and a call marker at the entry of each embedded
function (so that short-circuit and call-count properties are statable).
-/

namespace AuthRestart

/-- Character-list version of "p is a leading segment of s". -/
def leadMatch : List Char → List Char → Bool
  | [], _ => true
  | _ :: _, [] => false
  | a :: as, b :: bs => a == b && leadMatch as bs

/-- Character-list version of "p occurs contiguously inside s". -/
def subMatch (p : List Char) : List Char → Bool
  | [] => p.isEmpty
  | c :: t => leadMatch p (c :: t) || subMatch p t

/-- Python's `pat in s` substring test. -/
def strContains (s pat : String) : Bool := subMatch pat.data s.data

/-- Python's `str.strip()`: drop leading and trailing whitespace. -/
def pyStrip (s : String) : String :=
  ⟨((s.data.dropWhile Char.isWhitespace).reverse.dropWhile Char.isWhitespace).reverse⟩

/-- OS version triple, as returned by `osutils.getOsVersion(as_tuple=True)`. -/
structure OsVersion where
  major : Nat
  minor : Nat
  patch : Nat
deriving DecidableEq, Repr

/-- Python lexicographic comparison `(major, minor, patch) >= (a, b)`
(a longer tuple with an equal leading segment compares greater). -/
def vGE (v : OsVersion) (a b : Nat) : Bool :=
  decide (a < v.major ∨ (a = v.major ∧ b ≤ v.minor))

/-- Outcome of `subprocess.check_output`: either a normal exit with captured
combined stdout+stderr, or a `CalledProcessError` carrying the captured
output. -/
structure CmdResult where
  exitOk : Bool
  output : String
deriving DecidableEq, Repr

/-- Outcome of `FoundationPlist.readPlist` on the recovery-key file:
a serialization failure, or a parsed dictionary whose `RecoveryKey`
entry is absent (`KeyError`) or present with a string value. -/
inductive PlistReadResult where
  | readError : PlistReadResult
  | parsed : Option String → PlistReadResult
deriving DecidableEq, Repr

/-- The ambient state the module reads: OS version, the two preferences,
and the behaviour of the external commands and of the plist file. -/
structure Env where
  osVersion : OsVersion
  performAuthRestarts : Bool
  recoveryKeyFile : Option String
  isactive : CmdResult
  supports : CmdResult
  plist : PlistReadResult
  authrestartStderr : String
deriving DecidableEq, Repr

/-- Observable events: logging calls, spawned subprocesses, and a marker at
the entry of each embedded function. -/
inductive Event where
  | debug : String → Event
  | info : String → Event
  | warning : String → Event
  | error : String → Event
  | callIsActive : Event
  | callSupports : Event
  | callGetKey : Event
  | callPerform : Event
  | spawnIsActive : Event
  | spawnSupports : Event
  | spawnAuthRestart : String → Event
  | spawnShutdown : Event
deriving DecidableEq, Repr

/-- Python truthiness of the `RecoveryKeyFile` preference value
(`None` and the empty string are falsy). -/
def keyFileTruthy : Option String → Bool
  | none => false
  | some s => s != ""

/-- Embedding of `FoundationPlist.writePlistToString` applied to the
singleton dictionary mapping Password to the key: the plist document handed
to the helper on stdin. -/
def writePlistToString (password : String) : String :=
  "<plist><dict><key>Password</key><string>" ++ password ++ "</string></dict></plist>"

/-- Embedding of `filevault_is_active()`: spawn `/usr/bin/fdesetup isactive`; on a normal
exit return whether the output contains `true`; on a command failure classify
the captured output for the warning and return `False`. -/
def filevault_is_active (env : Env) : Bool × List Event :=
  if env.isactive.exitOk then
    (strContains env.isactive.output "true",
     [Event.callIsActive, Event.debug "Checking if FileVault is enabled...",
      Event.spawnIsActive])
  else if env.isactive.output != "" && strContains env.isactive.output "false" then
    (false,
     [Event.callIsActive, Event.debug "Checking if FileVault is enabled...",
      Event.spawnIsActive, Event.warning "FileVault appears to be disabled..."])
  else if env.isactive.output == "" then
    (false,
     [Event.callIsActive, Event.debug "Checking if FileVault is enabled...",
      Event.spawnIsActive,
      Event.warning "Encountered problem determining FileVault status..."])
  else
    (false,
     [Event.callIsActive, Event.debug "Checking if FileVault is enabled...",
      Event.spawnIsActive, Event.warning env.isactive.output])

/-- Embedding of `supports_auth_restart()`: spawn `/usr/bin/fdesetup supportsauthrestart`;
on a normal exit return whether the output contains `true`; on a command
failure log the output (or a generic diagnostic) and return `False`. -/
def supports_auth_restart (env : Env) : Bool × List Event :=
  if env.supports.exitOk then
    if strContains env.supports.output "true" then
      (true,
       [Event.callSupports,
        Event.debug "Checking if FileVault can perform an AuthRestart...",
        Event.spawnSupports, Event.debug "FileVault supports AuthRestart..."])
    else
      (false,
       [Event.callSupports,
        Event.debug "Checking if FileVault can perform an AuthRestart...",
        Event.spawnSupports,
        Event.warning "FileVault AuthRestart is not supported..."])
  else if env.supports.output != "" then
    (false,
     [Event.callSupports,
      Event.debug "Checking if FileVault can perform an AuthRestart...",
      Event.spawnSupports, Event.warning env.supports.output])
  else
    (false,
     [Event.callSupports,
      Event.debug "Checking if FileVault can perform an AuthRestart...",
      Event.spawnSupports,
      Event.warning "Encountered problem determining AuthRestart status..."])

/-- Embedding of `get_auth_restart_key()`: read the `RecoveryKeyFile`
preference; if unset warn and return the empty string; otherwise read the
plist and return the stripped `RecoveryKey` value, degrading every failure to
the empty string with a diagnostic. -/
def get_auth_restart_key (env : Env) : String × List Event :=
  match env.recoveryKeyFile with
  | none => ("", [Event.callGetKey, Event.warning "RecoveryKeyFile preference is not set"])
  | some path =>
    if path == "" then
      ("", [Event.callGetKey, Event.warning "RecoveryKeyFile preference is not set"])
    else
      match env.plist with
      | PlistReadResult.readError =>
        ("", [Event.callGetKey,
              Event.debug ("RecoveryKeyFile preference is set to " ++ path ++ "..."),
              Event.error ("We had trouble getting info from " ++ path ++ "...")])
      | PlistReadResult.parsed none =>
        ("", [Event.callGetKey,
              Event.debug ("RecoveryKeyFile preference is set to " ++ path ++ "..."),
              Event.error ("Problem with key: RecoveryKey in " ++ path ++ "...")])
      | PlistReadResult.parsed (some v) =>
        (pyStrip v,
         [Event.callGetKey,
          Event.debug ("RecoveryKeyFile preference is set to " ++ path ++ "...")])

/-- Embedding of `can_attempt_auth_restart()`: the five-way short-circuit
conjunction
`os >= (10,8) and PerformAuthRestarts and filevault_is_active() and
supports_auth_restart() and get_auth_restart_key() != ''`. -/
def can_attempt_auth_restart (env : Env) : Bool × List Event :=
  if !(vGE env.osVersion 10 8) then (false, [])
  else if !env.performAuthRestarts then (false, [])
  else if !(filevault_is_active env).fst then (false, (filevault_is_active env).snd)
  else if !(supports_auth_restart env).fst then
    (false, (filevault_is_active env).snd ++ (supports_auth_restart env).snd)
  else
    ((get_auth_restart_key env).fst != "",
     (filevault_is_active env).snd ++ (supports_auth_restart env).snd ++
       (get_auth_restart_key env).snd)

/-- Events of `perform_auth_restart` accumulated up to and including the spawn
of `/usr/bin/fdesetup authrestart -inputplist` (reached only when the
capability re-check passed and the recovery key is non-empty). -/
def preSpawnTrace (env : Env) : List Event :=
  Event.callPerform ::
    Event.debug "Checking if performing an Auth Restart is fully supported..." ::
    (supports_auth_restart env).snd ++
    [Event.debug "Machine supports Authorized Restarts..."] ++
    (get_auth_restart_key env).snd ++
    [Event.info "Attempting an Authorized Restart now...",
     Event.spawnAuthRestart (writePlistToString (get_auth_restart_key env).fst)]

/-- Embedding of `perform_auth_restart()`: re-check support, look up the
key, spawn the helper feeding it the serialized Password plist on stdin, and
classify its stderr:
on `os >= (10,12)` the message `System is being restarted` counts as success,
otherwise any non-empty stderr is a logged failure, and empty stderr is
success. -/
def perform_auth_restart (env : Env) : Bool × List Event :=
  if !(supports_auth_restart env).fst then
    (false,
     Event.callPerform ::
       Event.debug "Checking if performing an Auth Restart is fully supported..." ::
       (supports_auth_restart env).snd ++
       [Event.warning "Machine doesn\x27t support Authorized Restarts..."])
  else if (get_auth_restart_key env).fst == "" then
    (false,
     Event.callPerform ::
       Event.debug "Checking if performing an Auth Restart is fully supported..." ::
       (supports_auth_restart env).snd ++
       [Event.debug "Machine supports Authorized Restarts..."] ++
       (get_auth_restart_key env).snd)
  else if vGE env.osVersion 10 12 &&
      strContains env.authrestartStderr "System is being restarted" then
    (true, preSpawnTrace env)
  else if env.authrestartStderr != "" then
    (false, preSpawnTrace env ++ [Event.error env.authrestartStderr])
  else
    (true, preSpawnTrace env)

/-- The unconditional fallback tail: debug log plus `/sbin/shutdown -r now`. -/
def regularRestartTail : List Event :=
  [Event.debug "Performing a regular restart...", Event.spawnShutdown]

/-- Embedding of `do_authorized_or_normal_restart()`: the top-level flow.  The boolean
result records whether the function returned early having triggered an
authorized restart (the source returns `None` in both cases; the early
return is the observable distinction). -/
def do_authorized_or_normal_restart (env : Env) : Bool × List Event :=
  if env.performAuthRestarts && keyFileTruthy env.recoveryKeyFile &&
      vGE env.osVersion 10 8 then
    if (filevault_is_active env).fst then
      if (perform_auth_restart env).fst then
        (true,
         Event.info "Restarting now." :: (filevault_is_active env).snd ++
           [Event.debug "Configured to perform AuthRestarts..."] ++
           (perform_auth_restart env).snd)
      else
        (false,
         Event.info "Restarting now." :: (filevault_is_active env).snd ++
           [Event.debug "Configured to perform AuthRestarts..."] ++
           (perform_auth_restart env).snd ++
           [Event.warning "Authorized Restart failed. Performing normal restart..."] ++
           regularRestartTail)
    else
      (false, Event.info "Restarting now." :: (filevault_is_active env).snd ++
        regularRestartTail)
  else
    (false, Event.info "Restarting now." :: regularRestartTail)

/-- Event classifiers used by the statements below. -/
def isShutdownSpawn : Event → Bool
  | Event.spawnShutdown => true
  | _ => false

def isAuthSpawn : Event → Bool
  | Event.spawnAuthRestart _ => true
  | _ => false

def isIsActiveCall : Event → Bool
  | Event.callIsActive => true
  | _ => false

def isSupportsCall : Event → Bool
  | Event.callSupports => true
  | _ => false

def isGetKeyCall : Event → Bool
  | Event.callGetKey => true
  | _ => false

def isPerformCall : Event → Bool
  | Event.callPerform => true
  | _ => false

def isLog : Event → Bool
  | Event.debug _ => true
  | Event.info _ => true
  | Event.warning _ => true
  | Event.error _ => true
  | _ => false

/-! ### Fixture environments used for concrete scenarios -/

/-- A fully eligible environment: modern OS, both preferences set, FileVault
active, capability probe succeeding, a valid recovery-key plist, and a helper
that exits with empty stderr. -/
def baseEnv : Env :=
  { osVersion := ⟨10, 14, 0⟩
    performAuthRestarts := true
    recoveryKeyFile := some "/private/var/recovery.plist"
    isactive := ⟨true, "true\n"⟩
    supports := ⟨true, "true\n"⟩
    plist := PlistReadResult.parsed (some "ABCD-1234")
    authrestartStderr := "" }

/-! ### Count helper lemmas -/

theorem fv_countP_zero (env : Env) (p : Event → Bool)
    (h1 : p Event.callIsActive = false) (h2 : ∀ s, p (Event.debug s) = false)
    (h3 : p Event.spawnIsActive = false) (h4 : ∀ s, p (Event.warning s) = false) :
    ((filevault_is_active env).snd).countP p = 0 := by
  unfold filevault_is_active
  split <;> [skip; split] <;> [skip; skip; split] <;>
    simp [List.countP_cons, h1, h2, h3, h4]

theorem sup_countP_zero (env : Env) (p : Event → Bool)
    (h1 : p Event.callSupports = false) (h2 : ∀ s, p (Event.debug s) = false)
    (h3 : p Event.spawnSupports = false) (h4 : ∀ s, p (Event.warning s) = false) :
    ((supports_auth_restart env).snd).countP p = 0 := by
  unfold supports_auth_restart
  split <;> [split; skip] <;> [skip; skip; split] <;>
    simp [List.countP_cons, h1, h2, h3, h4]

theorem key_countP_zero (env : Env) (p : Event → Bool)
    (h1 : p Event.callGetKey = false) (h2 : ∀ s, p (Event.debug s) = false)
    (h3 : ∀ s, p (Event.warning s) = false) (h4 : ∀ s, p (Event.error s) = false) :
    ((get_auth_restart_key env).snd).countP p = 0 := by
  unfold get_auth_restart_key
  cases env.recoveryKeyFile with
  | none => simp [List.countP_cons, h1, h3]
  | some path =>
    cases env.plist with
    | readError =>
      by_cases hp : path == "" <;> simp [hp, List.countP_cons, h1, h2, h3, h4]
    | parsed o =>
      cases o with
      | none =>
        by_cases hp : path == "" <;> simp [hp, List.countP_cons, h1, h2, h3, h4]
      | some v =>
        by_cases hp : path == "" <;> simp [hp, List.countP_cons, h1, h2, h3]

theorem perform_countP_zero (env : Env) (p : Event → Bool)
    (h1 : p Event.callPerform = false) (h2 : ∀ s, p (Event.debug s) = false)
    (h3 : ∀ s, p (Event.warning s) = false) (h4 : ∀ s, p (Event.error s) = false)
    (h5 : ∀ s, p (Event.info s) = false) (h6 : ∀ s, p (Event.spawnAuthRestart s) = false)
    (h7 : p Event.callSupports = false) (h8 : p Event.spawnSupports = false)
    (h9 : p Event.callGetKey = false) :
    ((perform_auth_restart env).snd).countP p = 0 := by
  have hs := sup_countP_zero env p h7 h2 h8 h3
  have hk := key_countP_zero env p h9 h2 h3 h4
  unfold perform_auth_restart preSpawnTrace
  split <;> [skip; split] <;> [skip; skip; split] <;> [skip; skip; skip; split] <;>
    simp [List.countP_cons, List.countP_append, h1, h2, h3, h4, h5, h6, hs, hk]

theorem fv_fst (env : Env) :
    (filevault_is_active env).fst =
      (env.isactive.exitOk && strContains env.isactive.output "true") := by
  unfold filevault_is_active
  split <;> [skip; split] <;> [skip; skip; split] <;> simp_all

theorem sup_fst (env : Env) :
    (supports_auth_restart env).fst =
      (env.supports.exitOk && strContains env.supports.output "true") := by
  unfold supports_auth_restart
  split <;> [split; skip] <;> [skip; skip; split] <;> simp_all

theorem fv_isActiveCall_one (env : Env) :
    ((filevault_is_active env).snd).countP isIsActiveCall = 1 := by
  unfold filevault_is_active
  split <;> [skip; split] <;> [skip; skip; split] <;>
    simp [List.countP_cons, isIsActiveCall]

theorem sup_supCall_one (env : Env) :
    ((supports_auth_restart env).snd).countP isSupportsCall = 1 := by
  unfold supports_auth_restart
  split <;> [split; skip] <;> [skip; skip; split] <;>
    simp [List.countP_cons, isSupportsCall]

theorem key_keyCall_one (env : Env) :
    ((get_auth_restart_key env).snd).countP isGetKeyCall = 1 := by
  unfold get_auth_restart_key
  cases env.recoveryKeyFile with
  | none => simp [List.countP_cons, isGetKeyCall]
  | some path =>
    cases env.plist with
    | readError =>
      by_cases hp : path == "" <;> simp [hp, List.countP_cons, isGetKeyCall]
    | parsed o =>
      cases o with
      | none =>
        by_cases hp : path == "" <;> simp [hp, List.countP_cons, isGetKeyCall]
      | some v =>
        by_cases hp : path == "" <;> simp [hp, List.countP_cons, isGetKeyCall]

theorem perform_auth_count (env : Env) :
    ((perform_auth_restart env).snd).countP isAuthSpawn =
      if (supports_auth_restart env).fst && !((get_auth_restart_key env).fst == "")
      then 1 else 0 := by
  have hs := sup_countP_zero env isAuthSpawn rfl (fun _ => rfl) rfl (fun _ => rfl)
  have hk := key_countP_zero env isAuthSpawn rfl (fun _ => rfl) (fun _ => rfl) (fun _ => rfl)
  unfold perform_auth_restart preSpawnTrace
  split <;> [skip; split] <;> [skip; skip; split] <;> [skip; skip; skip; split] <;>
    simp only [List.countP_cons, List.countP_append, List.countP_nil, hs, hk,
      isAuthSpawn] <;>
    simp_all

theorem perform_performCall_one (env : Env) :
    ((perform_auth_restart env).snd).countP isPerformCall = 1 := by
  have hs := sup_countP_zero env isPerformCall rfl (fun _ => rfl) rfl (fun _ => rfl)
  have hk := key_countP_zero env isPerformCall rfl (fun _ => rfl) (fun _ => rfl) (fun _ => rfl)
  unfold perform_auth_restart preSpawnTrace
  split <;> [skip; split] <;> [skip; skip; split] <;> [skip; skip; skip; split] <;>
    simp only [List.countP_cons, List.countP_append, List.countP_nil, hs, hk,
      isPerformCall] <;>
    simp_all

/-- The informational stderr message the helper prints on newer OS versions. -/
def restartedMsg : String := "System is being restarted."

/-- Baseline environment with a given OS version and the informational helper
message on stderr. -/
def msgEnv (v : OsVersion) : Env :=
  { baseEnv with osVersion := v, authrestartStderr := restartedMsg }

/-! ### Claim theorems -/

/-- C8: `filevault_is_active` returns `true` exactly when the status command
exits successfully and its captured output contains the token `true`; every
other path returns `false`.  The embedding is a total function, so no
exception escapes the probe. -/
theorem C8_filevault_probe_classification (env : Env) :
    (filevault_is_active env).fst =
      (env.isactive.exitOk && strContains env.isactive.output "true") :=
  fv_fst env

/-- Witness for C8: a failing `fdesetup isactive` with output `"false\n"`
yields `false`. -/
theorem C8_filevault_probe_classification_witness :
    (filevault_is_active { baseEnv with isactive := ⟨false, "false\n"⟩ }).fst =
      false := by
  have h := C8_filevault_probe_classification
    { baseEnv with isactive := ⟨false, "false\n"⟩ }
  simpa using h

/-- C7: `get_auth_restart_key` returns the `RecoveryKey` field stripped of
surrounding whitespace; with no configured `RecoveryKeyFile`, an unreadable
plist, or a plist missing the `RecoveryKey` field it returns the empty string
(never an exception) with the corresponding warning or error diagnostic. -/
theorem C7_get_auth_restart_key_contract (env : Env) :
    (keyFileTruthy env.recoveryKeyFile = false →
      (get_auth_restart_key env).fst = "" ∧
      Event.warning "RecoveryKeyFile preference is not set" ∈
        (get_auth_restart_key env).snd) ∧
    (∀ path, env.recoveryKeyFile = some path → path ≠ "" →
      ((env.plist = PlistReadResult.readError →
        (get_auth_restart_key env).fst = "" ∧
        Event.error ("We had trouble getting info from " ++ path ++ "...") ∈
          (get_auth_restart_key env).snd) ∧
      (env.plist = PlistReadResult.parsed none →
        (get_auth_restart_key env).fst = "" ∧
        Event.error ("Problem with key: RecoveryKey in " ++ path ++ "...") ∈
          (get_auth_restart_key env).snd) ∧
      (∀ v, env.plist = PlistReadResult.parsed (some v) →
        (get_auth_restart_key env).fst = pyStrip v))) ∧
    (get_auth_restart_key
        { baseEnv with
            plist := PlistReadResult.parsed (some "  ABCD-1234  ") }).fst =
      "ABCD-1234" := by
  refine ⟨?_, ?_, by decide⟩
  · intro h
    unfold get_auth_restart_key
    unfold keyFileTruthy at h
    cases hrk : env.recoveryKeyFile with
    | none => simp
    | some path =>
      rw [hrk] at h
      simp only [bne_eq_false_iff_eq] at h
      simp [h]
  · intro path hrk hpe
    have hp : (path == "") = false := by simp [hpe]
    unfold get_auth_restart_key
    rw [hrk]
    refine ⟨?_, ?_, ?_⟩
    · intro h; rw [h]; simp [hp]
    · intro h; rw [h]; simp [hp]
    · intro v h; rw [h]; simp [hp]

/-- Witness for C7: with no configured path the lookup returns the empty
string and warns. -/
theorem C7_get_auth_restart_key_contract_witness :
    (get_auth_restart_key { baseEnv with recoveryKeyFile := none }).fst = "" ∧
    Event.warning "RecoveryKeyFile preference is not set" ∈
      (get_auth_restart_key { baseEnv with recoveryKeyFile := none }).snd :=
  (C7_get_auth_restart_key_contract
    { baseEnv with recoveryKeyFile := none }).1 (by decide)

/-- Helper: the executor's result once the capability re-check passed and the
credential is non-empty. -/
theorem perform_fst_classified (env : Env)
    (hsup : (supports_auth_restart env).fst = true)
    (hkey : (get_auth_restart_key env).fst ≠ "") :
    (perform_auth_restart env).fst =
      ((vGE env.osVersion 10 12 &&
          strContains env.authrestartStderr "System is being restarted") ||
        (env.authrestartStderr == "")) := by
  have hk : ((get_auth_restart_key env).fst == "") = false := by simp [hkey]
  by_cases hb : (vGE env.osVersion 10 12 &&
      strContains env.authrestartStderr "System is being restarted") = true
  · simp [perform_auth_restart, hsup, hk, hb]
  · simp only [Bool.not_eq_true] at hb
    by_cases he : env.authrestartStderr = "" <;>
      simp [perform_auth_restart, hsup, hk, hb, he]

/-- C2: once the helper has run (capability re-check passed, key non-empty),
`perform_auth_restart` succeeds iff `osVersion >= (10,12)` and stderr contains
`System is being restarted`, or stderr is empty; a non-empty stderr not
covered by the version-gated rule is a failure logged verbatim as an error.
In particular stderr `"System is being restarted."` succeeds on (10,13,0),
fails on (10,11,0), and empty stderr succeeds on every OS version. -/
theorem C2_executor_outcome_classification (env : Env)
    (hsup : (supports_auth_restart env).fst = true)
    (hkey : (get_auth_restart_key env).fst ≠ "") :
    ((perform_auth_restart env).fst =
      ((vGE env.osVersion 10 12 &&
          strContains env.authrestartStderr "System is being restarted") ||
        (env.authrestartStderr == ""))) ∧
    ((vGE env.osVersion 10 12 &&
        strContains env.authrestartStderr "System is being restarted") = false →
      env.authrestartStderr ≠ "" →
      Event.error env.authrestartStderr ∈ (perform_auth_restart env).snd) ∧
    ((perform_auth_restart (msgEnv ⟨10, 13, 0⟩)).fst = true) ∧
    ((perform_auth_restart (msgEnv ⟨10, 11, 0⟩)).fst = false) ∧
    (∀ v : OsVersion,
      (perform_auth_restart { baseEnv with osVersion := v }).fst = true) := by
  have hk : ((get_auth_restart_key env).fst == "") = false := by simp [hkey]
  refine ⟨perform_fst_classified env hsup hkey, ?_, by decide, by decide, ?_⟩
  · intro hb he
    simp [perform_auth_restart, hsup, hk, hb, he]
  · intro v
    have hs' : (supports_auth_restart { baseEnv with osVersion := v }).fst =
        true := by
      rw [show supports_auth_restart { baseEnv with osVersion := v } =
        supports_auth_restart baseEnv from rfl]
      decide
    have hk' : (get_auth_restart_key { baseEnv with osVersion := v }).fst ≠ "" := by
      rw [show get_auth_restart_key { baseEnv with osVersion := v } =
        get_auth_restart_key baseEnv from rfl]
      decide
    rw [perform_fst_classified _ hs' hk']
    rw [show ({ baseEnv with osVersion := v } : Env).authrestartStderr = ""
      from rfl]
    simp

/-- Witness for C2: the fully eligible baseline environment with empty stderr
satisfies the hypotheses, and the classification applies there. -/
theorem C2_executor_outcome_classification_witness :
    (perform_auth_restart baseEnv).fst =
      ((vGE baseEnv.osVersion 10 12 &&
          strContains baseEnv.authrestartStderr "System is being restarted") ||
        (baseEnv.authrestartStderr == "")) :=
  (C2_executor_outcome_classification baseEnv (by decide) (by decide)).1

/-- C10: `perform_auth_restart` enforces no OS-version floor of its own —
whenever its capability re-check passes and the credential is non-empty it
spawns the helper exactly once and transmits the credential, for every OS
version (including versions below (10,8)); the OS version enters only the
post-spawn success classification. -/
theorem C10_executor_no_version_floor (env : Env)
    (hsup : (supports_auth_restart env).fst = true)
    (hkey : (get_auth_restart_key env).fst ≠ "") :
    ((perform_auth_restart env).snd).countP isAuthSpawn = 1 ∧
    Event.spawnAuthRestart (writePlistToString (get_auth_restart_key env).fst) ∈
      (perform_auth_restart env).snd ∧
    (perform_auth_restart env).fst =
      ((vGE env.osVersion 10 12 &&
          strContains env.authrestartStderr "System is being restarted") ||
        (env.authrestartStderr == "")) := by
  have hk : ((get_auth_restart_key env).fst == "") = false := by simp [hkey]
  refine ⟨?_, ?_, ?_⟩
  · rw [perform_auth_count]; simp [hsup, hk]
  · unfold perform_auth_restart
    simp only [hsup, hk, Bool.not_true, Bool.false_eq_true, if_false,
      if_neg Bool.false_ne_true]
    split <;> [skip; split] <;> simp [preSpawnTrace]
  · exact perform_fst_classified env hsup hkey

/-- Witness for C10: on OS version (10,0,0) — below the (10,8) floor — the
helper is still spawned once with the credential, and empty stderr counts as
success. -/
theorem C10_executor_no_version_floor_witness :
    ((perform_auth_restart { baseEnv with osVersion := ⟨10, 0, 0⟩ }).snd).countP
        isAuthSpawn = 1 ∧
    Event.spawnAuthRestart
        (writePlistToString
          (get_auth_restart_key { baseEnv with osVersion := ⟨10, 0, 0⟩ }).fst) ∈
      (perform_auth_restart { baseEnv with osVersion := ⟨10, 0, 0⟩ }).snd ∧
    (perform_auth_restart { baseEnv with osVersion := ⟨10, 0, 0⟩ }).fst =
      ((vGE (⟨10, 0, 0⟩ : OsVersion) 10 12 &&
          strContains "" "System is being restarted") || ("" == "")) :=
  C10_executor_no_version_floor { baseEnv with osVersion := ⟨10, 0, 0⟩ }
    (by decide) (by decide)

/-- C6: `perform_auth_restart` first re-checks the capability probe — on
failure it returns `false` without invoking the credential lookup and without
spawning the helper; with the capability present but an empty credential it
returns `false` without spawning any subprocess. -/
theorem C6_executor_defensive_rechecks (env : Env) :
    ((supports_auth_restart env).fst = false →
      (perform_auth_restart env).fst = false ∧
      ((perform_auth_restart env).snd).countP isGetKeyCall = 0 ∧
      ((perform_auth_restart env).snd).countP isAuthSpawn = 0) ∧
    ((supports_auth_restart env).fst = true →
      (get_auth_restart_key env).fst = "" →
      (perform_auth_restart env).fst = false ∧
      ((perform_auth_restart env).snd).countP isAuthSpawn = 0) := by
  have hsg := sup_countP_zero env isGetKeyCall rfl (fun _ => rfl) rfl (fun _ => rfl)
  have hsa := sup_countP_zero env isAuthSpawn rfl (fun _ => rfl) rfl (fun _ => rfl)
  have hka := key_countP_zero env isAuthSpawn rfl (fun _ => rfl) (fun _ => rfl)
    (fun _ => rfl)
  constructor
  · intro h
    have hb : (!(supports_auth_restart env).fst) = true := by rw [h]; rfl
    rw [perform_auth_restart, if_pos hb]
    refine ⟨rfl, ?_, ?_⟩ <;>
      simp only [List.countP_cons, List.countP_append, List.countP_nil, hsg, hsa,
        isGetKeyCall, isAuthSpawn] <;> simp
  · intro h hk
    have hb : (!(supports_auth_restart env).fst) = false := by rw [h]; rfl
    have hk' : ((get_auth_restart_key env).fst == "") = true := by simp [hk]
    rw [perform_auth_restart, if_neg (by rw [hb]; exact Bool.false_ne_true),
      if_pos hk']
    refine ⟨rfl, ?_⟩
    simp only [List.countP_cons, List.countP_append, List.countP_nil, hsa, hka,
      isAuthSpawn]
    simp

/-- Witness for C6: with a failing capability probe the executor fails without
looking up the credential or spawning the helper. -/
theorem C6_executor_defensive_rechecks_witness :
    (perform_auth_restart { baseEnv with supports := ⟨true, "false\n"⟩ }).fst =
        false ∧
    ((perform_auth_restart
        { baseEnv with supports := ⟨true, "false\n"⟩ }).snd).countP
        isGetKeyCall = 0 ∧
    ((perform_auth_restart
        { baseEnv with supports := ⟨true, "false\n"⟩ }).snd).countP
        isAuthSpawn = 0 :=
  (C6_executor_defensive_rechecks
    { baseEnv with supports := ⟨true, "false\n"⟩ }).1 (by decide)

/-- C3: `can_attempt_auth_restart` is the short-circuit conjunction of the
five conditions in source order — OS floor, policy flag, FileVault probe,
capability probe, non-empty credential — and once a condition fails, no later
probe is evaluated (its call marker is absent from the trace). -/
theorem C3_precondition_gate (env : Env) :
    ((can_attempt_auth_restart env).fst =
      (vGE env.osVersion 10 8 && env.performAuthRestarts &&
        (filevault_is_active env).fst && (supports_auth_restart env).fst &&
        ((get_auth_restart_key env).fst != ""))) ∧
    ((vGE env.osVersion 10 8 && env.performAuthRestarts) = false →
      (can_attempt_auth_restart env).snd = []) ∧
    (vGE env.osVersion 10 8 = true → env.performAuthRestarts = true →
      ((can_attempt_auth_restart env).snd).countP isIsActiveCall = 1 ∧
      ((filevault_is_active env).fst = false →
        ((can_attempt_auth_restart env).snd).countP isSupportsCall = 0 ∧
        ((can_attempt_auth_restart env).snd).countP isGetKeyCall = 0) ∧
      ((filevault_is_active env).fst = true →
        ((can_attempt_auth_restart env).snd).countP isSupportsCall = 1 ∧
        ((supports_auth_restart env).fst = false →
          ((can_attempt_auth_restart env).snd).countP isGetKeyCall = 0) ∧
        ((supports_auth_restart env).fst = true →
          ((can_attempt_auth_restart env).snd).countP isGetKeyCall = 1))) := by
  have fvA := fv_isActiveCall_one env
  have fvS := fv_countP_zero env isSupportsCall rfl (fun _ => rfl) rfl (fun _ => rfl)
  have fvK := fv_countP_zero env isGetKeyCall rfl (fun _ => rfl) rfl (fun _ => rfl)
  have suS := sup_supCall_one env
  have suK := sup_countP_zero env isGetKeyCall rfl (fun _ => rfl) rfl (fun _ => rfl)
  have suA := sup_countP_zero env isIsActiveCall rfl (fun _ => rfl) rfl (fun _ => rfl)
  have keK := key_keyCall_one env
  have keA := key_countP_zero env isIsActiveCall rfl (fun _ => rfl) (fun _ => rfl)
    (fun _ => rfl)
  have keS := key_countP_zero env isSupportsCall rfl (fun _ => rfl) (fun _ => rfl)
    (fun _ => rfl)
  cases hc1 : vGE env.osVersion 10 8 <;> cases hc2 : env.performAuthRestarts <;>
    cases hfv : (filevault_is_active env).fst <;>
    cases hsup : (supports_auth_restart env).fst <;>
    simp [can_attempt_auth_restart, hc1, hc2, hfv, hsup, List.countP_append,
      fvA, fvS, fvK, suS, suK, suA, keK, keA, keS]

/-- Witness for C3: with the policy flag off, the gate's trace is empty (no
probe was evaluated). -/
theorem C3_precondition_gate_witness :
    (can_attempt_auth_restart { baseEnv with performAuthRestarts := false }).snd =
      [] :=
  (C3_precondition_gate
    { baseEnv with performAuthRestarts := false }).2.1 (by decide)

/-- Helper: a successful executor run implies both the capability re-check and
the credential lookup succeeded (the helper was actually spawned). -/
theorem perform_reached_of_fst (env : Env)
    (h : (perform_auth_restart env).fst = true) :
    (supports_auth_restart env).fst = true ∧
      (get_auth_restart_key env).fst ≠ "" := by
  by_cases hs : (supports_auth_restart env).fst = true
  · by_cases hk : (get_auth_restart_key env).fst = ""
    · exfalso
      unfold perform_auth_restart at h
      simp [hs, hk] at h
    · exact ⟨hs, hk⟩
  · exfalso
    simp only [Bool.not_eq_true] at hs
    unfold perform_auth_restart at h
    simp [hs] at h

/-- C1: every call of `do_authorized_or_normal_restart` initiates exactly one
restart: either the flow returns having triggered the authorized-restart
helper (spawned exactly once, no `shutdown` call), or it issues exactly one
`shutdown -r now` (with at most one — possibly failed — helper invocation
before it); never both effective restarts and never neither. -/
theorem C1_exactly_one_restart (env : Env) :
    ((do_authorized_or_normal_restart env).fst = true ∧
      ((do_authorized_or_normal_restart env).snd).countP isAuthSpawn = 1 ∧
      ((do_authorized_or_normal_restart env).snd).countP isShutdownSpawn = 0) ∨
    ((do_authorized_or_normal_restart env).fst = false ∧
      ((do_authorized_or_normal_restart env).snd).countP isShutdownSpawn = 1 ∧
      ((do_authorized_or_normal_restart env).snd).countP isAuthSpawn ≤ 1) := by
  have fvSh := fv_countP_zero env isShutdownSpawn rfl (fun _ => rfl) rfl
    (fun _ => rfl)
  have fvAu := fv_countP_zero env isAuthSpawn rfl (fun _ => rfl) rfl (fun _ => rfl)
  have peSh := perform_countP_zero env isShutdownSpawn rfl (fun _ => rfl)
    (fun _ => rfl) (fun _ => rfl) (fun _ => rfl) (fun _ => rfl) rfl rfl rfl
  have peAu := perform_auth_count env
  unfold do_authorized_or_normal_restart
  split
  · split
    · split
      · left
        rename_i hperf
        obtain ⟨hs, hk⟩ := perform_reached_of_fst env hperf
        refine ⟨rfl, ?_, ?_⟩
        · simp [List.countP_cons, List.countP_append, fvAu, peAu, hs, hk,
            isAuthSpawn]
        · simp [List.countP_cons, List.countP_append, fvSh, peSh, isShutdownSpawn]
      · right
        refine ⟨rfl, ?_, ?_⟩
        · simp [List.countP_cons, List.countP_append, fvSh, peSh,
            regularRestartTail, isShutdownSpawn]
        · have h01 : ((perform_auth_restart env).snd).countP isAuthSpawn = 0 ∨
              ((perform_auth_restart env).snd).countP isAuthSpawn = 1 := by
            rw [peAu]; split <;> simp
          rcases h01 with h | h <;>
            simp [List.countP_cons, List.countP_append, h, regularRestartTail,
              isAuthSpawn, fvAu]
    · right
      refine ⟨rfl, ?_, ?_⟩
      · simp [List.countP_cons, List.countP_append, fvSh, regularRestartTail,
          isShutdownSpawn]
      · simp [List.countP_cons, List.countP_append, fvAu, regularRestartTail,
          isAuthSpawn]
  · right
    refine ⟨rfl, ?_, ?_⟩ <;>
      simp [List.countP_cons, regularRestartTail, isShutdownSpawn, isAuthSpawn]

/-- Witness for C1: in the fully eligible baseline environment the flow
triggers the authorized restart (one helper spawn, no shutdown). -/
theorem C1_exactly_one_restart_witness :
    ((do_authorized_or_normal_restart baseEnv).fst = true ∧
      ((do_authorized_or_normal_restart baseEnv).snd).countP isAuthSpawn = 1 ∧
      ((do_authorized_or_normal_restart baseEnv).snd).countP isShutdownSpawn =
        0) ∨
    ((do_authorized_or_normal_restart baseEnv).fst = false ∧
      ((do_authorized_or_normal_restart baseEnv).snd).countP isShutdownSpawn =
        1 ∧
      ((do_authorized_or_normal_restart baseEnv).snd).countP isAuthSpawn ≤ 1) :=
  C1_exactly_one_restart baseEnv

/-- Baseline environment whose helper fails with a non-empty stderr that is
not the informational restart message. -/
def failEnv : Env := { baseEnv with authrestartStderr := "Operation failed" }

/-- C4: end-to-end scenarios.  In the fully eligible baseline environment
(policy on, key file set, OS (10,14,0), FileVault active, capability true,
credential non-empty): a succeeding executor yields exactly one helper spawn
and zero shutdown calls; a failing executor yields exactly one helper spawn
followed by exactly one shutdown call. -/
theorem C4_end_to_end_scenarios :
    (baseEnv.performAuthRestarts = true ∧
     keyFileTruthy baseEnv.recoveryKeyFile = true ∧
     baseEnv.osVersion = ⟨10, 14, 0⟩ ∧
     (filevault_is_active baseEnv).fst = true ∧
     (supports_auth_restart baseEnv).fst = true ∧
     (get_auth_restart_key baseEnv).fst ≠ "") ∧
    ((perform_auth_restart baseEnv).fst = true ∧
     ((do_authorized_or_normal_restart baseEnv).snd).countP isAuthSpawn = 1 ∧
     ((do_authorized_or_normal_restart baseEnv).snd).countP isShutdownSpawn =
       0) ∧
    ((perform_auth_restart failEnv).fst = false ∧
     ((do_authorized_or_normal_restart failEnv).snd).countP isAuthSpawn = 1 ∧
     ((do_authorized_or_normal_restart failEnv).snd).countP isShutdownSpawn =
       1 ∧
     ((do_authorized_or_normal_restart failEnv).snd).filter
         (fun e => isAuthSpawn e || isShutdownSpawn e) =
       [Event.spawnAuthRestart (writePlistToString "ABCD-1234"),
        Event.spawnShutdown]) := by
  decide

/-- C5: the flow's Deciding step evaluates only the restricted eligibility
check (policy flag, key file set, OS floor, FileVault active) — the executor
is attempted exactly when it holds, and the capability probe and credential
lookup are never invoked outside the executor (their call counts in the
flow's trace are those of the executor's own trace, and zero when the
restricted check fails). -/
theorem C5_deciding_restricted_eligibility (env : Env) :
    (((do_authorized_or_normal_restart env).snd).countP isPerformCall =
      (if (env.performAuthRestarts && keyFileTruthy env.recoveryKeyFile &&
            vGE env.osVersion 10 8 && (filevault_is_active env).fst) = true
        then 1 else 0)) ∧
    ((env.performAuthRestarts && keyFileTruthy env.recoveryKeyFile &&
        vGE env.osVersion 10 8 && (filevault_is_active env).fst) = false →
      ((do_authorized_or_normal_restart env).snd).countP isSupportsCall = 0 ∧
      ((do_authorized_or_normal_restart env).snd).countP isGetKeyCall = 0) ∧
    ((env.performAuthRestarts && keyFileTruthy env.recoveryKeyFile &&
        vGE env.osVersion 10 8 && (filevault_is_active env).fst) = true →
      ((do_authorized_or_normal_restart env).snd).countP isSupportsCall =
        ((perform_auth_restart env).snd).countP isSupportsCall ∧
      ((do_authorized_or_normal_restart env).snd).countP isGetKeyCall =
        ((perform_auth_restart env).snd).countP isGetKeyCall) := by
  have fvP := fv_countP_zero env isPerformCall rfl (fun _ => rfl) rfl (fun _ => rfl)
  have fvS := fv_countP_zero env isSupportsCall rfl (fun _ => rfl) rfl (fun _ => rfl)
  have fvK := fv_countP_zero env isGetKeyCall rfl (fun _ => rfl) rfl (fun _ => rfl)
  have peP := perform_performCall_one env
  cases hc1 : env.performAuthRestarts <;>
    cases hc2 : keyFileTruthy env.recoveryKeyFile <;>
    cases hc3 : vGE env.osVersion 10 8 <;>
    cases hfv : (filevault_is_active env).fst <;>
    cases hpe : (perform_auth_restart env).fst <;>
    simp [do_authorized_or_normal_restart, hc1, hc2, hc3, hfv, hpe,
      List.countP_cons, List.countP_append, regularRestartTail,
      fvP, fvS, fvK, peP, isPerformCall, isSupportsCall, isGetKeyCall]

/-- Witness for C5: in the baseline environment the restricted check holds,
so the executor's call marker appears exactly once in the flow's trace. -/
theorem C5_deciding_restricted_eligibility_witness :
    ((do_authorized_or_normal_restart baseEnv).snd).countP isSupportsCall =
      ((perform_auth_restart baseEnv).snd).countP isSupportsCall ∧
    ((do_authorized_or_normal_restart baseEnv).snd).countP isGetKeyCall =
      ((perform_auth_restart baseEnv).snd).countP isGetKeyCall :=
  (C5_deciding_restricted_eligibility baseEnv).2.2 (by decide)

/-! ### Credential-confidentiality machinery (for the hyperproperty claim) -/

/-- The environment with the recovery-key plist holding a given credential. -/
def withKey (env : Env) (k : String) : Env :=
  { env with plist := PlistReadResult.parsed (some k) }

/-- With the preference set, the lookup returns the stripped stored value. -/
theorem key_withKey_fst (env : Env) (k : String)
    (ht : keyFileTruthy env.recoveryKeyFile = true) :
    (get_auth_restart_key (withKey env k)).fst = pyStrip k := by
  unfold get_auth_restart_key
  rw [show (withKey env k).recoveryKeyFile = env.recoveryKeyFile from rfl]
  unfold keyFileTruthy at ht
  cases hr : env.recoveryKeyFile with
  | none => rw [hr] at ht; cases ht
  | some path =>
    rw [hr] at ht
    rw [show (withKey env k).plist = PlistReadResult.parsed (some k) from rfl]
    simp only [bne_iff_ne, ne_eq] at ht
    simp [ht]

/-- The lookup's trace does not depend on the stored credential value. -/
theorem key_withKey_snd (env : Env) (k₁ k₂ : String) :
    (get_auth_restart_key (withKey env k₁)).snd =
      (get_auth_restart_key (withKey env k₂)).snd := by
  unfold get_auth_restart_key
  rw [show (withKey env k₁).recoveryKeyFile = env.recoveryKeyFile from rfl,
    show (withKey env k₂).recoveryKeyFile = env.recoveryKeyFile from rfl,
    show (withKey env k₁).plist = PlistReadResult.parsed (some k₁) from rfl,
    show (withKey env k₂).plist = PlistReadResult.parsed (some k₂) from rfl]
  cases env.recoveryKeyFile with
  | none => rfl
  | some path => by_cases hp : path == "" <;> simp [hp]

/-- With the preference unset (or empty) the lookup ignores the plist. -/
theorem key_withKey_untruthy (env : Env) (k : String)
    (ht : keyFileTruthy env.recoveryKeyFile = false) :
    get_auth_restart_key (withKey env k) =
      ("", [Event.callGetKey,
            Event.warning "RecoveryKeyFile preference is not set"]) := by
  unfold get_auth_restart_key
  rw [show (withKey env k).recoveryKeyFile = env.recoveryKeyFile from rfl]
  unfold keyFileTruthy at ht
  cases hr : env.recoveryKeyFile with
  | none => rfl
  | some path =>
    rw [hr] at ht
    simp only [bne_eq_false_iff_eq] at ht
    simp [ht]

/-- The executor is determined by the capability probe, the OS version, the
helper's stderr, and the credential lookup's result. -/
theorem perform_congr (e₁ e₂ : Env) (hs : e₁.supports = e₂.supports)
    (hos : e₁.osVersion = e₂.osVersion)
    (herr : e₁.authrestartStderr = e₂.authrestartStderr)
    (hkey : get_auth_restart_key e₁ = get_auth_restart_key e₂) :
    perform_auth_restart e₁ = perform_auth_restart e₂ := by
  have hsup : supports_auth_restart e₁ = supports_auth_restart e₂ := by
    unfold supports_auth_restart
    rw [hs]
  unfold perform_auth_restart preSpawnTrace
  rw [hsup, hos, herr, hkey]

/-- Two executor runs that agree on everything but the (non-empty) credential
value return the same outcome and the same logged events. -/
theorem filter_log_perform_eq (e₁ e₂ : Env)
    (hs : supports_auth_restart e₁ = supports_auth_restart e₂)
    (hos : e₁.osVersion = e₂.osVersion)
    (herr : e₁.authrestartStderr = e₂.authrestartStderr)
    (hksnd : (get_auth_restart_key e₁).snd = (get_auth_restart_key e₂).snd)
    (hkne₁ : (get_auth_restart_key e₁).fst ≠ "")
    (hkne₂ : (get_auth_restart_key e₂).fst ≠ "") :
    (perform_auth_restart e₁).fst = (perform_auth_restart e₂).fst ∧
    ((perform_auth_restart e₁).snd).filter isLog =
      ((perform_auth_restart e₂).snd).filter isLog := by
  have hb₁ : ((get_auth_restart_key e₁).fst == "") = false := by simp [hkne₁]
  have hb₂ : ((get_auth_restart_key e₂).fst == "") = false := by simp [hkne₂]
  unfold perform_auth_restart preSpawnTrace
  rw [hs, hos, herr, hksnd]
  simp only [hb₁, hb₂]
  by_cases h1 : (!(supports_auth_restart e₂).fst) = true
  · simp [h1, List.filter_append, List.filter_cons, isLog]
  · simp only [h1, Bool.false_eq_true, if_false, Bool.not_eq_true] at *
    by_cases h2 : (vGE e₂.osVersion 10 12 &&
        strContains e₂.authrestartStderr "System is being restarted") = true
    · simp [h1, h2, List.filter_append, List.filter_cons, isLog]
    · by_cases h3 : e₂.authrestartStderr = "" <;>
        simp [h1, h2, h3, List.filter_append, List.filter_cons, isLog]

/-- All helper spawns in the executor's trace carry exactly the serialized
`{Password: credential}` document. -/
theorem perform_filter_auth (env : Env) :
    ((perform_auth_restart env).snd).filter isAuthSpawn =
      (if ((supports_auth_restart env).fst &&
            !((get_auth_restart_key env).fst == "")) = true
        then [Event.spawnAuthRestart
                (writePlistToString (get_auth_restart_key env).fst)]
        else []) := by
  have hs : ((supports_auth_restart env).snd).filter isAuthSpawn = [] := by
    rw [List.filter_eq_nil_iff]
    intro a ha
    have := List.countP_eq_zero.mp
      (sup_countP_zero env isAuthSpawn rfl (fun _ => rfl) rfl (fun _ => rfl)) a ha
    simpa using this
  have hk : ((get_auth_restart_key env).snd).filter isAuthSpawn = [] := by
    rw [List.filter_eq_nil_iff]
    intro a ha
    have := List.countP_eq_zero.mp
      (key_countP_zero env isAuthSpawn rfl (fun _ => rfl) (fun _ => rfl)
        (fun _ => rfl)) a ha
    simpa using this
  unfold perform_auth_restart preSpawnTrace
  by_cases h1 : (!(supports_auth_restart env).fst) = true
  · have h1' : (supports_auth_restart env).fst = false := by simpa using h1
    simp [h1, h1', List.filter_append, List.filter_cons, hs, hk, isAuthSpawn]
  · have h1' : (supports_auth_restart env).fst = true := by simpa using h1
    by_cases h2 : ((get_auth_restart_key env).fst == "") = true
    · simp [h1, h1', h2, List.filter_append, List.filter_cons, hs, hk, isAuthSpawn]
    · have h2' : ((get_auth_restart_key env).fst == "") = false := by simpa using h2
      by_cases h3 : (vGE env.osVersion 10 12 &&
          strContains env.authrestartStderr "System is being restarted") = true
      · simp [h1, h1', h2', h3, List.filter_append, List.filter_cons, hs, hk,
          isAuthSpawn]
      · by_cases h4 : env.authrestartStderr = "" <;>
          simp [h1, h1', h2', h3, h4, List.filter_append, List.filter_cons, hs,
            hk, isAuthSpawn]

/-- Any helper spawn in the executor's trace carries the looked-up credential
serialized as the `Password` field. -/
theorem perform_spawn_payload (env : Env) (s : String)
    (hmem : Event.spawnAuthRestart s ∈ (perform_auth_restart env).snd) :
    s = writePlistToString (get_auth_restart_key env).fst := by
  have h : Event.spawnAuthRestart s ∈
      ((perform_auth_restart env).snd).filter isAuthSpawn :=
    List.mem_filter.mpr ⟨hmem, rfl⟩
  rw [perform_filter_auth] at h
  split at h
  · simpa using h
  · simp at h

/-- Two flow runs that agree on the policy, the OS version, the FileVault
probe, and the executor's outcome and logs, return the same result and the
same logged events. -/
theorem flow_log_eq (e₁ e₂ : Env)
    (hpa : e₁.performAuthRestarts = e₂.performAuthRestarts)
    (hrk : e₁.recoveryKeyFile = e₂.recoveryKeyFile)
    (hos : e₁.osVersion = e₂.osVersion)
    (hfv : filevault_is_active e₁ = filevault_is_active e₂)
    (hpf : (perform_auth_restart e₁).fst = (perform_auth_restart e₂).fst)
    (hpl : ((perform_auth_restart e₁).snd).filter isLog =
      ((perform_auth_restart e₂).snd).filter isLog) :
    (do_authorized_or_normal_restart e₁).fst =
      (do_authorized_or_normal_restart e₂).fst ∧
    ((do_authorized_or_normal_restart e₁).snd).filter isLog =
      ((do_authorized_or_normal_restart e₂).snd).filter isLog := by
  unfold do_authorized_or_normal_restart regularRestartTail
  rw [hpa, hrk, hos, hfv, hpf]
  by_cases h1 : (e₂.performAuthRestarts && keyFileTruthy e₂.recoveryKeyFile &&
      vGE e₂.osVersion 10 8) = true
  · by_cases h2 : (filevault_is_active e₂).fst = true
    · by_cases h3 : (perform_auth_restart e₂).fst = true <;>
        simp [h1, h2, h3, List.filter_append, List.filter_cons, isLog, hpl]
    · simp [h1, h2, List.filter_append, List.filter_cons, isLog]
  · simp [h1, List.filter_cons, isLog]

/-- The flow's helper spawns are exactly the executor's, and only occur when
the restricted eligibility check held. -/
theorem flow_filter_auth (env : Env) :
    ((do_authorized_or_normal_restart env).snd).filter isAuthSpawn =
      (if (env.performAuthRestarts && keyFileTruthy env.recoveryKeyFile &&
            vGE env.osVersion 10 8 && (filevault_is_active env).fst) = true
        then ((perform_auth_restart env).snd).filter isAuthSpawn
        else []) := by
  have hfv : ((filevault_is_active env).snd).filter isAuthSpawn = [] := by
    rw [List.filter_eq_nil_iff]
    intro a ha
    have := List.countP_eq_zero.mp
      (fv_countP_zero env isAuthSpawn rfl (fun _ => rfl) rfl (fun _ => rfl)) a ha
    simpa using this
  unfold do_authorized_or_normal_restart regularRestartTail
  by_cases h1 : (env.performAuthRestarts && keyFileTruthy env.recoveryKeyFile &&
      vGE env.osVersion 10 8) = true
  · by_cases h2 : (filevault_is_active env).fst = true
    · by_cases h3 : (perform_auth_restart env).fst = true <;>
        simp [h1, h2, h3, List.filter_append, List.filter_cons, hfv, isAuthSpawn]
    · simp [h1, h2, List.filter_append, List.filter_cons, hfv, isAuthSpawn]
  · simp [h1, List.filter_cons, isAuthSpawn]

/-- Any helper spawn anywhere in the flow's trace carries the looked-up
credential serialized as the `Password` field. -/
theorem flow_spawn_payload (env : Env) (s : String)
    (hmem : Event.spawnAuthRestart s ∈
      (do_authorized_or_normal_restart env).snd) :
    s = writePlistToString (get_auth_restart_key env).fst := by
  have h : Event.spawnAuthRestart s ∈
      ((do_authorized_or_normal_restart env).snd).filter isAuthSpawn :=
    List.mem_filter.mpr ⟨hmem, rfl⟩
  rw [flow_filter_auth] at h
  split at h
  · exact perform_spawn_payload env s (List.mem_filter.mp h).1
  · simp at h

/-- C9: the recovery credential never reaches any logging call and is only
written to the helper's stdin as the serialized `Password` field: the flow's
result and its entire logged output are identical for any two non-empty
stored credentials, and every helper-spawn event's stdin is exactly the
serialized plist of the (stripped) stored credential. -/
theorem C9_credential_never_logged (env : Env) (k₁ k₂ : String)
    (h₁ : pyStrip k₁ ≠ "") (h₂ : pyStrip k₂ ≠ "") :
    (do_authorized_or_normal_restart (withKey env k₁)).fst =
      (do_authorized_or_normal_restart (withKey env k₂)).fst ∧
    ((do_authorized_or_normal_restart (withKey env k₁)).snd).filter isLog =
      ((do_authorized_or_normal_restart (withKey env k₂)).snd).filter isLog ∧
    (∀ s, Event.spawnAuthRestart s ∈
        (do_authorized_or_normal_restart (withKey env k₁)).snd →
      s = writePlistToString (pyStrip k₁)) := by
  by_cases ht : keyFileTruthy env.recoveryKeyFile = true
  · have hk₁ := key_withKey_fst env k₁ ht
    have hk₂ := key_withKey_fst env k₂ ht
    have hperf := filter_log_perform_eq (withKey env k₁) (withKey env k₂) rfl rfl
      rfl (key_withKey_snd env k₁ k₂) (by rw [hk₁]; exact h₁) (by rw [hk₂]; exact h₂)
    have hflow := flow_log_eq (withKey env k₁) (withKey env k₂) rfl rfl rfl rfl
      hperf.1 hperf.2
    refine ⟨hflow.1, hflow.2, ?_⟩
    intro s hmem
    rw [flow_spawn_payload (withKey env k₁) s hmem, hk₁]
  · simp only [Bool.not_eq_true] at ht
    have hkey : get_auth_restart_key (withKey env k₁) =
        get_auth_restart_key (withKey env k₂) := by
      rw [key_withKey_untruthy env k₁ ht, key_withKey_untruthy env k₂ ht]
    have hperf := perform_congr (withKey env k₁) (withKey env k₂) rfl rfl rfl hkey
    have hflow := flow_log_eq (withKey env k₁) (withKey env k₂) rfl rfl rfl rfl
      (by rw [hperf]) (by rw [hperf])
    refine ⟨hflow.1, hflow.2, ?_⟩
    intro s hmem
    exfalso
    have h : Event.spawnAuthRestart s ∈
        ((do_authorized_or_normal_restart (withKey env k₁)).snd).filter
          isAuthSpawn :=
      List.mem_filter.mpr ⟨hmem, rfl⟩
    rw [flow_filter_auth] at h
    rw [show (withKey env k₁).recoveryKeyFile = env.recoveryKeyFile from rfl] at h
    rw [ht] at h
    simp at h

/-- Witness for C9: two different concrete credentials produce identical
results and logs in the baseline environment. -/
theorem C9_credential_never_logged_witness :
    (do_authorized_or_normal_restart (withKey baseEnv "SECRET-1")).fst =
      (do_authorized_or_normal_restart (withKey baseEnv "SECRET-2")).fst ∧
    ((do_authorized_or_normal_restart (withKey baseEnv "SECRET-1")).snd).filter
        isLog =
      ((do_authorized_or_normal_restart (withKey baseEnv "SECRET-2")).snd).filter
        isLog ∧
    (∀ s, Event.spawnAuthRestart s ∈
        (do_authorized_or_normal_restart (withKey baseEnv "SECRET-1")).snd →
      s = writePlistToString (pyStrip "SECRET-1")) :=
  C9_credential_never_logged baseEnv "SECRET-1" "SECRET-2" (by decide) (by decide)

end AuthRestart
